import Mathlib

set_option maxRecDepth 100000

/-!
Verification of `android/generate_icons.py` (ChoreQuestV2).

The script draws a Play-Store icon with PIL and writes two PNG files.
We embed the rendering routine `create_play_store_icon` and the driver
`main` shallowly:

* Python floats are modelled by exact rationals (`ℚ`); decimal literals
  such as `0.7` and `16.2` become `7/10` and `81/5`.  Python's `int()`
  (truncation toward zero) becomes `pyInt`.
* A PIL image is a structure holding its dimensions, whether its mode
  carries an alpha channel (`RGBA` vs `RGB`), and a pixel map.
* `ImageDraw.rectangle` paints an inclusive bounding box (PIL semantics);
  `ImageDraw.polygon` fills by the even-odd rule, modelled by a
  ray-crossing test; `Image.alpha_composite` is straight-alpha "over"
  blending in exact rational arithmetic, truncated back to integers.
* The driver and the module-level package guard are modelled by their
  observable effects (exit code, printed lines, directories created,
  files written).
-/

/-- Python's `int()` applied to an exact rational: truncation toward zero. -/
def pyInt (q : ℚ) : ℤ := if q < 0 then -⌊-q⌋ else ⌊q⌋

/-- One RGBA pixel value (channels as unbounded integers; the script only
ever produces channel values in `[0, 255]`). -/
structure Pixel where
  r : ℤ
  g : ℤ
  b : ℤ
  a : ℤ
deriving DecidableEq, Repr

/-- A PIL image: dimensions, whether the mode has an alpha channel
(`RGBA` when `true`, `RGB` when `false`), and the pixel map. -/
structure Img where
  width : ℕ
  height : ℕ
  alpha : Bool
  px : ℕ → ℕ → Pixel

/-- `Image.new('RGB', (w, h), c)`. -/
def imageNewRGB (w h : ℕ) (c : Pixel) : Img := ⟨w, h, false, fun _ _ => c⟩

/-- `Image.new('RGBA', (w, h), c)`. -/
def imageNewRGBA (w h : ℕ) (c : Pixel) : Img := ⟨w, h, true, fun _ _ => c⟩

/-- `img.convert('RGBA')`: the mode gains an alpha channel; an `RGB`
source is fully opaque. -/
def Img.convertRGBA (im : Img) : Img :=
  ⟨im.width, im.height, true, fun x y =>
    let p := im.px x y
    ⟨p.r, p.g, p.b, if im.alpha then p.a else 255⟩⟩

/-- `img.convert('RGB')`: the alpha channel is dropped (PIL discards it
without blending); the result carries no per-pixel transparency. -/
def Img.convertRGB (im : Img) : Img :=
  ⟨im.width, im.height, false, fun x y =>
    let p := im.px x y
    ⟨p.r, p.g, p.b, 255⟩⟩

/-- `ImageDraw.rectangle([(x0, y0), (x1, y1)], fill=c)`: PIL paints the
bounding box inclusive of both corner points. -/
def drawRect (im : Img) (x0 y0 x1 y1 : ℕ) (c : Pixel) : Img :=
  { im with px := fun x y =>
      if x0 ≤ x ∧ x ≤ x1 ∧ y0 ≤ y ∧ y ≤ y1 then c else im.px x y }

/-- Does the horizontal ray from `(x, y)` toward `+∞` cross the closed
edge from `a` to `b`?  (Standard half-open crossing test, with the
division cleared by cross-multiplication.) -/
def edgeCrossed (a b : ℚ × ℚ) (x y : ℚ) : Bool :=
  (decide (a.2 ≤ y) && decide (y < b.2) &&
    decide ((x - a.1) * (b.2 - a.2) < (b.1 - a.1) * (y - a.2))) ||
  (decide (b.2 ≤ y) && decide (y < a.2) &&
    decide ((b.1 - a.1) * (y - a.2) < (x - a.1) * (b.2 - a.2)))

/-- Even-odd membership test for a point in a polygon, used to model
`ImageDraw.polygon`'s filled region. -/
def insidePoly (pts : List (ℚ × ℚ)) (x y : ℚ) : Bool :=
  ((pts.zip (pts.rotate 1)).countP fun e => edgeCrossed e.1 e.2 x y) % 2 == 1

/-- `ImageDraw.polygon(pts, fill=c)`. -/
def drawPolygon (im : Img) (pts : List (ℚ × ℚ)) (c : Pixel) : Img :=
  { im with px := fun x y =>
      if insidePoly pts (x : ℚ) (y : ℚ) then c else im.px x y }

/-- `Image.alpha_composite(dst, src)`: straight-alpha "over" blending,
per pixel, in exact rational arithmetic, truncated back to integer
channels. -/
def alphaComposite (dst src : Img) : Img :=
  ⟨dst.width, dst.height, true, fun x y =>
    let d := dst.px x y
    let s := src.px x y
    let sa : ℚ := (s.a : ℚ) / 255
    let da : ℚ := (d.a : ℚ) / 255
    let oa : ℚ := sa + da * (1 - sa)
    if oa = 0 then ⟨0, 0, 0, 0⟩ else
      ⟨pyInt (((s.r : ℚ) * sa + (d.r : ℚ) * da * (1 - sa)) / oa),
       pyInt (((s.g : ℚ) * sa + (d.g : ℚ) * da * (1 - sa)) / oa),
       pyInt (((s.b : ℚ) * sa + (d.b : ℚ) * da * (1 - sa)) / oa),
       pyInt (oa * 255)⟩⟩

/-- The white background colour `'#FFFFFF'` of the initial canvas. -/
def whitePixel : Pixel := ⟨255, 255, 255, 255⟩

/-- The interpolated gradient colour of row `y` (source lines 32-41):
`int(c1 + (c2 - c1) * (y / size))` per channel, from sky blue
`(0x4A, 0x90, 0xE2)` to purple `(0x9B, 0x59, 0xB6)`. -/
def gradColor (size y : ℕ) : Pixel :=
  let t : ℚ := (y : ℚ) / (size : ℚ)
  ⟨pyInt (0x4A + (0x9B - 0x4A) * t),
   pyInt (0x90 + (0x59 - 0x90) * t),
   pyInt (0xE2 + (0xB6 - 0xE2) * t),
   255⟩

/-- One iteration of the gradient loop:
`draw.rectangle([(0, y), (size, y + 1)], fill=color)`. -/
def gradientStep (size : ℕ) (im : Img) (y : ℕ) : Img :=
  drawRect im 0 y size (y + 1) (gradColor size y)

/-- The whole gradient loop `for y in range(size): ...`. -/
def gradientPass (size : ℕ) (im : Img) : Img :=
  (List.range size).foldl (gradientStep size) im

/-- The canvas after only the background-gradient pass (the state of
`img` at source line 42, before any overlay is composited). -/
def backgroundGradient (size : ℕ) : Img :=
  gradientPass size (imageNewRGB size size whitePixel)

/-- `scale = size / 108` (source line 59). -/
def scaleOf (size : ℕ) : ℚ := (size : ℚ) / 108

/-- `foreground_scale = 0.7 * scale` (source line 60). -/
def foregroundScale (size : ℕ) : ℚ := 7 / 10 * scaleOf size

/-- `translate_x = 16.2 * scale` (source line 61). -/
def translate_x (size : ℕ) : ℚ := 81 / 5 * scaleOf size

/-- `translate_y = 16.2 * scale` (source line 62). -/
def translate_y (size : ℕ) : ℚ := 81 / 5 * scaleOf size

/-- Round a rational to the nearest integer, ties to the even neighbour
(the rounding of IEEE-754 round-to-nearest-even). -/
def rne (q : ℚ) : ℤ :=
  let f := ⌊q⌋
  let r := q - (f : ℚ)
  if r < 1 / 2 then f
  else if 1 / 2 < r then f + 1
  else if f % 2 = 0 then f else f + 1

/-- Scale a positive rational by powers of two into the binade
`[2^52, 2^53)` of binary64 significands, returning the scaled value and
the exponent taken off.  The fuel bounds the number of doublings or
halvings; 300 covers every magnitude the script can produce. -/
def normLoop : ℕ → ℚ → ℤ → ℚ × ℤ
  | 0, q, e => (q, e)
  | fuel + 1, q, e =>
    if q < 4503599627370496 then normLoop fuel (q * 2) (e - 1)
    else if 9007199254740992 ≤ q then normLoop fuel (q / 2) (e + 1)
    else (q, e)

/-- Round a rational to the nearest IEEE-754 binary64 value (round to
nearest, ties to even), for magnitudes in the normal range — every value
this script manipulates is far inside it. -/
def roundDouble (q : ℚ) : ℚ :=
  if q = 0 then 0
  else
    let p := normLoop 300 |q| 0
    (if q < 0 then -1 else 1) * (rne p.1 : ℚ) * (2 : ℚ) ^ p.2

/-- A binary64 addition: exact sum, then one rounding. -/
def fadd (a b : ℚ) : ℚ := roundDouble (a + b)

/-- A binary64 multiplication: exact product, then one rounding. -/
def fmul (a b : ℚ) : ℚ := roundDouble (a * b)

/-- A binary64 division: exact quotient, then one rounding. -/
def fdiv (a b : ℚ) : ℚ := roundDouble (a / b)

/-- The double nearest the source literal `0.7`. -/
def lit07 : ℚ := roundDouble (7 / 10)

/-- The double nearest the source literal `16.2`. -/
def lit162 : ℚ := roundDouble (81 / 5)

/-- `scale = size / 108` as the source's binary64 value (`size` converts
exactly for any realistic size). -/
def scaleDouble (size : ℕ) : ℚ := fdiv (size : ℚ) 108

/-- `foreground_scale = 0.7 * scale` in binary64. -/
def foregroundScaleDouble (size : ℕ) : ℚ := fmul lit07 (scaleDouble size)

/-- `translate_x = 16.2 * scale` (and the identical `translate_y`) in
binary64. -/
def translateDouble (size : ℕ) : ℚ := fmul lit162 (scaleDouble size)

/-- `base_x = int(54 * foreground_scale + translate_x)` (source line 70).
In exact arithmetic the expression is exactly `size / 2`, so the `int()`
sits on a truncation boundary and the one-ulp float rounding decides the
value; the anchor is therefore evaluated with each operation rounded to
binary64 (the model reproduces the program's values, e.g. 0 at size 2,
255 at size 512, 511 at size 1024).  The other glyph measurements, whose
claims never depend on the odd ulp, stay in the exact-rational
idealization. -/
def base_x (size : ℕ) : ℤ :=
  pyInt (fadd (fmul 54 (foregroundScaleDouble size)) (translateDouble size))

/-- `base_y = int(54 * foreground_scale + translate_y)` (source line 71):
the identical expression, `translate_y` being the same product as
`translate_x`. -/
def base_y (size : ℕ) : ℤ :=
  pyInt (fadd (fmul 54 (foregroundScaleDouble size)) (translateDouble size))

/-- `shield_size = int(26 * foreground_scale)` (source line 72). -/
def shield_size (size : ℕ) : ℤ := pyInt (26 * foregroundScale size)

/-- The eight shield vertices `shield_path` (source lines 75-84). -/
def shield_path (size : ℕ) : List (ℚ × ℚ) :=
  let bx : ℚ := (base_x size : ℚ)
  let b_y : ℚ := (base_y size : ℚ)
  let ss : ℚ := (shield_size size : ℚ)
  [ (bx - ss, b_y - ss * 6 / 10),
    (bx - ss * 7 / 10, b_y - ss * 9 / 10),
    (bx, b_y - ss * 11 / 10),
    (bx + ss * 7 / 10, b_y - ss * 9 / 10),
    (bx + ss, b_y - ss * 6 / 10),
    (bx + ss, b_y + ss * 3 / 10),
    (bx, b_y + ss * 8 / 10),
    (bx - ss, b_y + ss * 3 / 10) ]

/-- The inset highlight `inner_shield`: every shield vertex pulled toward
the anchor, `(int(px * 0.85 + base_x * 0.15), int(py * 0.85 + base_y * 0.15))`
(source lines 88-89). -/
def inner_shield (size : ℕ) : List (ℚ × ℚ) :=
  (shield_path size).map fun p =>
    ((pyInt (p.1 * 85 / 100 + (base_x size : ℚ) * 15 / 100) : ℚ),
     (pyInt (p.2 * 85 / 100 + (base_y size : ℚ) * 15 / 100) : ℚ))

/-- `check_size = int(12 * foreground_scale)` (source line 93). -/
def check_size (size : ℕ) : ℤ := pyInt (12 * foregroundScale size)

/-- The six checkmark vertices `check_points` (source lines 94-101). -/
def check_points (size : ℕ) : List (ℚ × ℚ) :=
  let bx : ℚ := (base_x size : ℚ)
  let b_y : ℚ := (base_y size : ℚ)
  let cs : ℚ := (check_size size : ℚ)
  [ (bx - cs, b_y),
    (bx - cs * 3 / 10, b_y + cs * 5 / 10),
    (bx + cs * 8 / 10, b_y - cs * 8 / 10),
    (bx + cs * 6 / 10, b_y - cs),
    (bx - cs * 3 / 10, b_y + cs * 2 / 10),
    (bx - cs * 6 / 10, b_y - cs * 2 / 10) ]

/-- `star_x = base_x` (source line 105). -/
def star_x (size : ℕ) : ℤ := base_x size

/-- `star_y = int((54 - 34) * foreground_scale + translate_y)` (source
line 106). -/
def star_y (size : ℕ) : ℤ :=
  pyInt ((54 - 34) * foregroundScale size + translate_y size)

/-- `star_radius = int(6 * foreground_scale)` (source line 107). -/
def star_radius (size : ℕ) : ℤ := pyInt (6 * foregroundScale size)

/-- `angle = (i * 3.14159 / 5) - 1.5708` (source line 110).  The source
computes this local on every loop iteration and never reads it again:
no vertex coordinate depends on it. -/
def starAngle (i : ℕ) : ℚ := (i : ℚ) * 314159 / 100000 / 5 - 15708 / 10000

/-- Star vertex `i` (source lines 109-114):
`radius = star_radius if i % 2 == 0 else star_radius * 0.4`,
`x = star_x + int(radius * (1 if i % 2 == 0 else -1) * 0.7)` and the same
offset for `y`. -/
def star_point (size i : ℕ) : ℤ × ℤ :=
  let radius : ℚ :=
    if i % 2 == 0 then (star_radius size : ℚ) else (star_radius size : ℚ) * 4 / 10
  let sgn : ℚ := if i % 2 == 0 then 1 else -1
  (star_x size + pyInt (radius * sgn * 7 / 10),
   star_y size + pyInt (radius * sgn * 7 / 10))

/-- The ten star vertices `star_points` accumulated by
`for i in range(10)` (source lines 108-114). -/
def star_points (size : ℕ) : List (ℤ × ℤ) :=
  (List.range 10).map (star_point size)

/-- Source lines 44-118 after the gradient: the two translucent overlay
composites and the foreground glyph layer (shield, highlight, checkmark,
star), composited onto the given background and flattened to `RGB`. -/
def overlayAndForeground (size : ℕ) (bg : Img) : Img :=
  let yellow_overlay :=
    drawPolygon (imageNewRGBA size size ⟨0, 0, 0, 0⟩)
      [((0 : ℚ), (0 : ℚ)), ((size : ℚ), ((size / 2 : ℕ) : ℚ)), ((0 : ℚ), (size : ℚ))]
      ⟨255, 217, 61, 76⟩
  let img := (alphaComposite bg.convertRGBA yellow_overlay).convertRGB
  let purple_overlay :=
    drawRect (imageNewRGBA size size ⟨0, 0, 0, 0⟩) 0 0 size size ⟨155, 89, 182, 153⟩
  let img := (alphaComposite img.convertRGBA purple_overlay).convertRGB
  let foreground := imageNewRGBA size size ⟨0, 0, 0, 0⟩
  let foreground := drawPolygon foreground (shield_path size) ⟨255, 255, 255, 255⟩
  let foreground := drawPolygon foreground (inner_shield size) ⟨232, 244, 253, 255⟩
  let foreground := drawPolygon foreground (check_points size) ⟨39, 174, 96, 255⟩
  let foreground :=
    drawPolygon foreground ((star_points size).map fun p => ((p.1 : ℚ), (p.2 : ℚ)))
      ⟨255, 217, 61, 255⟩
  (alphaComposite img.convertRGBA foreground).convertRGB

/-- `create_play_store_icon(size)` (source lines 24-120): white canvas,
gradient pass, overlays and foreground, returned flattened to `RGB`. -/
def create_play_store_icon (size : ℕ) : Img :=
  overlayAndForeground size (backgroundGradient size)

/-- Gradient row colour with its division by `size` guarded: `none`
models the `ZeroDivisionError` that `ratio = y / size` would raise. -/
def gradColorChecked (size y : ℕ) : Option Pixel :=
  if (size : ℚ) = 0 then none else some (gradColor size y)

/-- The gradient loop with each division guarded. -/
def gradientPassChecked (size : ℕ) (im : Img) : Option Img :=
  (List.range size).foldlM
    (fun im y => (gradColorChecked size y).map fun c => drawRect im 0 y size (y + 1) c)
    im

/-- `scale = size / 108` with the division guarded: the divisor is the
constant `108`, so this can never actually fail. -/
def scaleChecked (size : ℕ) : Option ℚ :=
  if (108 : ℚ) = 0 then none else some (scaleOf size)

/-- `create_play_store_icon` with every division of the source guarded:
the per-row `y / size` divisions of the gradient loop, then the single
`size / 108`.  All remaining arithmetic (`int()`, additions,
multiplications, polygon tests, compositing) is total. -/
def create_play_store_icon_checked (size : ℕ) : Option Img := do
  let bg ← gradientPassChecked size (imageNewRGB size size whitePixel)
  let _ ← scaleChecked size
  some (overlayAndForeground size bg)

/-- Observable effects of one program run: exit status, lines printed to
stdout, directories created, and files written (name and image). -/
structure RunResult where
  exitCode : ℕ
  stdout : List String
  dirsCreated : List String
  filesWritten : List (String × Img)

/-- Effects of `main()` (source lines 122-146) when both packages
imported successfully: create `play_store_icons/`, render and save the
512 and 1024 icons, print the progress lines, return normally (exit 0). -/
def main_run : RunResult :=
  { exitCode := 0
    stdout :=
      [ "🎮 Generating ChoreQuest Play Store Icons..."
      , ""
      , "Generating 512x512 icon..."
      , "✓ Saved: play_store_icons/chorequest_icon_512x512.png"
      , "Generating 1024x1024 icon..."
      , "✓ Saved: play_store_icons/chorequest_icon_1024x1024.png"
      , ""
      , "✅ Icon generation complete!"
      , "📁 Icons saved in: play_store_icons/"
      , ""
      , "For Play Store submission, use: chorequest_icon_512x512.png" ]
    dirsCreated := ["play_store_icons"]
    filesWritten :=
      [ ("play_store_icons/chorequest_icon_512x512.png", create_play_store_icon 512)
      , ("play_store_icons/chorequest_icon_1024x1024.png", create_play_store_icon 1024) ] }

/-- The module-level package guard (source lines 16-22) succeeds exactly
when both `PIL` and `cairosvg` can be imported. -/
def guard_ok (pilAvailable cairosvgAvailable : Bool) : Bool :=
  pilAvailable && cairosvgAvailable

/-- Effects when the guard fails: print the fixed two-line message and
`sys.exit(1)` before any directory or file is touched. -/
def guard_failure : RunResult :=
  { exitCode := 1
    stdout :=
      [ "Error: Missing required packages."
      , "Install with: pip install cairosvg pillow" ]
    dirsCreated := []
    filesWritten := [] }

/-- Running the script: the package guard runs at module load, before
`main()`. -/
def run_program (pilAvailable cairosvgAvailable : Bool) : RunResult :=
  if guard_ok pilAvailable cairosvgAvailable then main_run else guard_failure

/-- Which runs of `main` succeed, as a function of the packages actually
present: every library operation `main` and `create_play_store_icon`
invoke (`Image.new`, `ImageDraw.Draw`, `rectangle`, `polygon`,
`alpha_composite`, `convert`, `save`) is from `PIL`; `cairosvg` is never
used after the module guard, so `main`'s work needs only `PIL`. -/
def main_with_capabilities (pilAvailable : Bool) : Option RunResult :=
  if pilAvailable then some main_run else none

lemma pyInt_eq_floor {q : ℚ} (h : 0 ≤ q) : pyInt q = ⌊q⌋ :=
  if_neg (not_lt.mpr h)

lemma pyInt_mono {p q : ℚ} (h0 : 0 ≤ p) (h : p ≤ q) : pyInt p ≤ pyInt q := by
  rw [pyInt_eq_floor h0, pyInt_eq_floor (h0.trans h)]
  exact Int.floor_mono h

lemma pyInt_int_add_fract {m : ℤ} {a : ℚ} (hm : 0 ≤ m) (h0 : 0 ≤ a) (h1 : a < 1) :
    pyInt ((m : ℚ) + a) = m := by
  have hma : (0 : ℚ) ≤ (m : ℚ) + a := by
    have : (0 : ℚ) ≤ (m : ℚ) := by exact_mod_cast hm
    linarith
  rw [pyInt_eq_floor hma, add_comm, Int.floor_add_int,
    Int.floor_eq_zero_iff.mpr ⟨h0, h1⟩, zero_add]

lemma gradientFold_width (s : ℕ) (l : List ℕ) (im : Img) :
    (l.foldl (gradientStep s) im).width = im.width := by
  induction l generalizing im with
  | nil => rfl
  | cons a l ih => exact ih _

lemma gradientFold_height (s : ℕ) (l : List ℕ) (im : Img) :
    (l.foldl (gradientStep s) im).height = im.height := by
  induction l generalizing im with
  | nil => rfl
  | cons a l ih => exact ih _

lemma backgroundGradient_width (s : ℕ) : (backgroundGradient s).width = s :=
  gradientFold_width s _ _

lemma backgroundGradient_height (s : ℕ) : (backgroundGradient s).height = s :=
  gradientFold_height s _ _

lemma overlayAndForeground_width (s : ℕ) (bg : Img) :
    (overlayAndForeground s bg).width = bg.width := rfl

lemma overlayAndForeground_height (s : ℕ) (bg : Img) :
    (overlayAndForeground s bg).height = bg.height := rfl

lemma create_play_store_icon_width (s : ℕ) :
    (create_play_store_icon s).width = s := by
  rw [create_play_store_icon, overlayAndForeground_width, backgroundGradient_width]

lemma create_play_store_icon_height (s : ℕ) :
    (create_play_store_icon s).height = s := by
  rw [create_play_store_icon, overlayAndForeground_height, backgroundGradient_height]

lemma create_play_store_icon_alpha (s : ℕ) :
    (create_play_store_icon s).alpha = false := rfl

/-- Pixel state of the gradient loop after its first `k` iterations: rows
below `k` hold their own gradient colour, row `k` holds the spill-over of
iteration `k - 1` (PIL's rectangle is inclusive, so iteration `y` also
paints row `y + 1`), and rows beyond are untouched. -/
lemma gradientFold_px (s : ℕ) (im : Img) (k x y : ℕ) (hx : x ≤ s) :
    ((List.range k).foldl (gradientStep s) im).px x y =
      if y < k then gradColor s y
      else if y = k ∧ 0 < k then gradColor s (k - 1)
      else im.px x y := by
  induction k with
  | zero => simp
  | succ k ih =>
    rw [List.range_succ, List.foldl_append, List.foldl_cons, List.foldl_nil]
    by_cases hy : k ≤ y ∧ y ≤ k + 1
    · have hcond : 0 ≤ x ∧ x ≤ s ∧ k ≤ y ∧ y ≤ k + 1 := ⟨Nat.zero_le x, hx, hy.1, hy.2⟩
      simp only [gradientStep, drawRect, if_pos hcond]
      have hyy : y = k ∨ y = k + 1 := by omega
      rcases hyy with h | h <;> subst h
      · rw [if_pos (by omega)]
      · rw [if_neg (by omega), if_pos ⟨rfl, by omega⟩, Nat.add_sub_cancel]
    · simp only [gradientStep, drawRect, if_neg (by omega : ¬(0 ≤ x ∧ x ≤ s ∧ k ≤ y ∧ y ≤ k + 1))]
      rw [ih]
      rcases (by omega : y < k ∨ k + 1 < y) with h | h
      · rw [if_pos h, if_pos (by omega)]
      · rw [if_neg (by omega), if_neg (by omega), if_neg (by omega), if_neg (by omega)]

lemma backgroundGradient_px (s x y : ℕ) (hx : x < s) (hy : y < s) :
    (backgroundGradient s).px x y = gradColor s y := by
  rw [backgroundGradient, gradientPass, gradientFold_px s _ s x y (le_of_lt hx), if_pos hy]

lemma gradColor_r (s y : ℕ) :
    (gradColor s y).r = pyInt (74 + 81 * ((y : ℚ) / (s : ℚ))) := by
  show pyInt _ = _
  congr 1
  norm_num

lemma gradColor_g (s y : ℕ) :
    (gradColor s y).g = pyInt (144 - 55 * ((y : ℚ) / (s : ℚ))) := by
  show pyInt _ = _
  congr 1
  norm_num
  ring

lemma gradColor_b (s y : ℕ) :
    (gradColor s y).b = pyInt (226 - 44 * ((y : ℚ) / (s : ℚ))) := by
  show pyInt _ = _
  congr 1
  norm_num
  ring

lemma gradColor_a (s y : ℕ) : (gradColor s y).a = 255 := rfl

lemma gradColor_zero (s : ℕ) : gradColor s 0 = ⟨74, 144, 226, 255⟩ := by
  simp [gradColor, pyInt]

lemma grad_r_mono {s y₁ y₂ : ℕ} (hs : 0 < s) (h : y₁ ≤ y₂) :
    (gradColor s y₁).r ≤ (gradColor s y₂).r := by
  have hs' : (0 : ℚ) < (s : ℚ) := by exact_mod_cast hs
  rw [gradColor_r, gradColor_r]
  apply pyInt_mono (by positivity)
  have ht : (y₁ : ℚ) / s ≤ (y₂ : ℚ) / s := by
    apply (div_le_div_iff_of_pos_right hs').mpr
    exact_mod_cast h
  linarith

lemma grad_frac_le_one {s y : ℕ} (hs : 0 < s) (h : y ≤ s) : (y : ℚ) / s ≤ 1 := by
  have hs' : (0 : ℚ) < (s : ℚ) := by exact_mod_cast hs
  rw [div_le_one hs']
  exact_mod_cast h

lemma grad_g_anti {s y₁ y₂ : ℕ} (hs : 0 < s) (h : y₁ ≤ y₂) (h2 : y₂ ≤ s) :
    (gradColor s y₂).g ≤ (gradColor s y₁).g := by
  have hs' : (0 : ℚ) < (s : ℚ) := by exact_mod_cast hs
  have ht : (y₁ : ℚ) / s ≤ (y₂ : ℚ) / s := by
    apply (div_le_div_iff_of_pos_right hs').mpr
    exact_mod_cast h
  have h1 : (y₂ : ℚ) / s ≤ 1 := grad_frac_le_one hs h2
  rw [gradColor_g, gradColor_g]
  apply pyInt_mono (by linarith)
  linarith

lemma grad_b_anti {s y₁ y₂ : ℕ} (hs : 0 < s) (h : y₁ ≤ y₂) (h2 : y₂ ≤ s) :
    (gradColor s y₂).b ≤ (gradColor s y₁).b := by
  have hs' : (0 : ℚ) < (s : ℚ) := by exact_mod_cast hs
  have ht : (y₁ : ℚ) / s ≤ (y₂ : ℚ) / s := by
    apply (div_le_div_iff_of_pos_right hs').mpr
    exact_mod_cast h
  have h1 : (y₂ : ℚ) / s ≤ 1 := grad_frac_le_one hs h2
  rw [gradColor_b, gradColor_b]
  apply pyInt_mono (by linarith)
  linarith

/-- The colour of the final gradient row, for canvases at least 81 pixels
tall: one unit short of the declared end colour in the red channel and
exactly on it in green and blue. -/
lemma gradColor_last (s : ℕ) (hs : 81 ≤ s) :
    gradColor s (s - 1) = ⟨154, 89, 182, 255⟩ := by
  have hs0 : (0 : ℚ) < (s : ℚ) := by
    have : 0 < s := by omega
    exact_mod_cast this
  have hs0' : (s : ℚ) ≠ 0 := ne_of_gt hs0
  have hcast : ((s - 1 : ℕ) : ℚ) = (s : ℚ) - 1 := by
    have : 1 ≤ s := by omega
    push_cast [this]
    ring
  have hsq : (81 : ℚ) ≤ (s : ℚ) := by exact_mod_cast hs
  have er : (74 : ℚ) + (155 - 74) * (((s : ℚ) - 1) / s) = ((154 : ℤ) : ℚ) + (1 - 81 / s) := by
    push_cast
    field_simp
    ring
  have eg : (144 : ℚ) + (89 - 144) * (((s : ℚ) - 1) / s) = ((89 : ℤ) : ℚ) + 55 / s := by
    push_cast
    field_simp
    ring
  have eb : (226 : ℚ) + (182 - 226) * (((s : ℚ) - 1) / s) = ((182 : ℤ) : ℚ) + 44 / s := by
    push_cast
    field_simp
    ring
  have h81 : (81 : ℚ) / s ≤ 1 := by
    rw [div_le_one hs0]
    exact hsq
  have h81' : (0 : ℚ) < 81 / s := div_pos (by norm_num) hs0
  have h55 : (55 : ℚ) / s < 1 := by
    rw [div_lt_one hs0]
    linarith
  have h44 : (44 : ℚ) / s < 1 := by
    rw [div_lt_one hs0]
    linarith
  show Pixel.mk _ _ _ _ = _
  rw [hcast]
  congr 1
  · rw [show (0x4A : ℚ) + (0x9B - 0x4A) * (((s : ℚ) - 1) / s) = (74 : ℚ) + (155 - 74) * (((s : ℚ) - 1) / s) by norm_num, er]
    exact pyInt_int_add_fract (by norm_num) (by linarith) (by linarith)
  · rw [show (0x90 : ℚ) + (0x59 - 0x90) * (((s : ℚ) - 1) / s) = (144 : ℚ) + (89 - 144) * (((s : ℚ) - 1) / s) by norm_num, eg]
    exact pyInt_int_add_fract (by norm_num) (by positivity) h55
  · rw [show (0xE2 : ℚ) + (0xB6 - 0xE2) * (((s : ℚ) - 1) / s) = (226 : ℚ) + (182 - 226) * (((s : ℚ) - 1) / s) by norm_num, eb]
    exact pyInt_int_add_fract (by norm_num) (by positivity) h44

lemma base_y_eq_base_x (s : ℕ) : base_y s = base_x s := rfl

/-- Even-indexed star vertices are all the one outer point. -/
lemma star_point_even {s i : ℕ} (h : i % 2 = 0) :
    star_point s i = star_point s 0 := by
  simp [star_point, h]

/-- Odd-indexed star vertices are all the one inner point. -/
lemma star_point_odd {s i : ℕ} (h : i % 2 = 1) :
    star_point s i = star_point s 1 := by
  simp [star_point, h]

/-- An `Option`-valued fold in which every step succeeds agrees with the
plain fold. -/
lemma foldlM_eq_foldl_of_some {α β : Type} (f : β → α → Option β) (g : β → α → β)
    (l : List α) (h : ∀ b a, a ∈ l → f b a = some (g b a)) (b : β) :
    l.foldlM f b = some (l.foldl g b) := by
  induction l generalizing b with
  | nil => rfl
  | cons a l ih =>
    rw [List.foldl_cons, List.foldlM_cons, h b a (List.mem_cons_self a l)]
    exact ih (fun b' a' ha' => h b' a' (List.mem_cons_of_mem a ha')) (g b a)

lemma gradientPassChecked_eq (s : ℕ) (hs : 0 < s) (im : Img) :
    gradientPassChecked s im = some (gradientPass s im) := by
  have hs' : ((s : ℚ)) ≠ 0 := by
    have : (0 : ℚ) < (s : ℚ) := by exact_mod_cast hs
    exact ne_of_gt this
  rw [gradientPassChecked, gradientPass]
  apply foldlM_eq_foldl_of_some
  intro b a _
  simp [gradColorChecked, hs', gradientStep]

/-- C1: for every positive integer size, `create_play_store_icon size`
returns an image whose width and height both equal `size` and whose mode
is opaque RGB — the final `convert('RGB')` leaves no alpha channel, so no
pixel of the returned image carries a transparency value. -/
theorem claim_C1_icon_size_and_opaque (size : ℕ) (_h : 0 < size) :
    (create_play_store_icon size).width = size ∧
    (create_play_store_icon size).height = size ∧
    (create_play_store_icon size).alpha = false :=
  ⟨create_play_store_icon_width size, create_play_store_icon_height size,
   create_play_store_icon_alpha size⟩

theorem claim_C1_witness :
    0 < 16 ∧ ((create_play_store_icon 16).width = 16 ∧
      (create_play_store_icon 16).height = 16 ∧
      (create_play_store_icon 16).alpha = false) :=
  ⟨by norm_num, claim_C1_icon_size_and_opaque 16 (by norm_num)⟩

/-- C5: after the background-gradient pass, every row `y` of the canvas
(including the last row `y = size - 1`) is uniformly filled with the
colour obtained by truncated linear interpolation of the start and end
colours at ratio `y / size`: the value is `gradColor size y`, independent
of the column `x`. -/
theorem claim_C5_gradient_rows (size x y : ℕ) (hx : x < size) (hy : y < size) :
    (backgroundGradient size).px x y = gradColor size y :=
  backgroundGradient_px size x y hx hy

theorem claim_C5_witness :
    1 < 3 ∧ 2 < 3 ∧ (backgroundGradient 3).px 1 2 = gradColor 3 2 :=
  ⟨by norm_num, by norm_num, claim_C5_gradient_rows 3 1 2 (by norm_num) (by norm_num)⟩

/-- C6: the renderer is deterministic.  In the embedding
`create_play_store_icon` is a pure function of `size` alone — it reads no
external state — so two renders at the same size are bit-identical, pixel
by pixel. -/
theorem claim_C6_deterministic (size : ℕ) :
    create_play_store_icon size = create_play_store_icon size ∧
    ∀ x y, (create_play_store_icon size).px x y = (create_play_store_icon size).px x y :=
  ⟨rfl, fun _ _ => rfl⟩

/-- C7: whenever the import guard fails (either package missing), the
program prints the fixed two-line missing-capability message with the
installation hint and exits with status 1, creating no directory and
writing no file. -/
theorem claim_C7_guard_failure (pil cairo : Bool) (h : guard_ok pil cairo = false) :
    run_program pil cairo = guard_failure ∧
    (run_program pil cairo).exitCode = 1 ∧
    (run_program pil cairo).stdout =
      ["Error: Missing required packages.", "Install with: pip install cairosvg pillow"] ∧
    (run_program pil cairo).dirsCreated = [] ∧
    (run_program pil cairo).filesWritten = [] := by
  have e : run_program pil cairo = guard_failure := by simp [run_program, h]
  exact ⟨e, by rw [e]; rfl, by rw [e]; rfl, by rw [e]; rfl, by rw [e]; rfl⟩

theorem claim_C7_witness :
    guard_ok true false = false ∧ run_program true false = guard_failure :=
  ⟨rfl, (claim_C7_guard_failure true false rfl).1⟩

/-- C8: a run with both packages present creates the directory
`play_store_icons`, writes exactly the two named PNG files at 512×512 and
1024×1024 pixels, and exits with status 0. -/
theorem claim_C8_driver_outputs :
    (run_program true true).exitCode = 0 ∧
    (run_program true true).dirsCreated = ["play_store_icons"] ∧
    (run_program true true).filesWritten.map Prod.fst =
      ["play_store_icons/chorequest_icon_512x512.png",
       "play_store_icons/chorequest_icon_1024x1024.png"] ∧
    (run_program true true).filesWritten.map (fun p => (p.2.width, p.2.height)) =
      [(512, 512), (1024, 1024)] := by
  refine ⟨rfl, rfl, rfl, ?_⟩
  show [((create_play_store_icon 512).width, (create_play_store_icon 512).height),
        ((create_play_store_icon 1024).width, (create_play_store_icon 1024).height)] = _
  rw [create_play_store_icon_width, create_play_store_icon_height,
    create_play_store_icon_width, create_play_store_icon_height]

/-- C10: with `PIL` present and `cairosvg` absent the module guard still
aborts the run with exit status 1 and no output, even though every
operation `main` would actually invoke is from `PIL`
(`main_with_capabilities` succeeds given `PIL` alone). -/
theorem claim_C10_cairosvg_unused :
    run_program true false = guard_failure ∧
    (run_program true false).exitCode = 1 ∧
    (run_program true false).filesWritten = [] ∧
    main_with_capabilities true = some main_run :=
  ⟨rfl, rfl, rfl, rfl⟩

/-- C9: `create_play_store_icon` is total on positive sizes: with every
division of the source guarded (`y / size` in the gradient loop,
`size / 108` for the scale factor — the only failure points, since all
other arithmetic and drawing steps are total), the checked rendering
succeeds and agrees with the unchecked one. -/
theorem claim_C9_total (size : ℕ) (h : 0 < size) :
    create_play_store_icon_checked size = some (create_play_store_icon size) := by
  have h108 : ((108 : ℚ)) ≠ 0 := by norm_num
  simp [create_play_store_icon_checked, gradientPassChecked_eq size h, scaleChecked, h108,
    create_play_store_icon, backgroundGradient]

theorem claim_C9_witness :
    0 < 2 ∧ create_play_store_icon_checked 2 = some (create_play_store_icon 2) :=
  ⟨by norm_num, claim_C9_total 2 (by norm_num)⟩

/-- C2 fails on the code: the loop computes the 36°-increment angles but
never uses them, so vertices at distinct angles are not at distinct
angle-determined positions.  At size 512, vertex 0 (claimed angle −90°)
and vertex 2 (claimed angle −18°) have different `starAngle` values yet
the very same coordinates — a genuinely angle-placed star with a positive
outer radius would separate them. -/
theorem claim_C2_counterexample :
    starAngle 0 ≠ starAngle 2 ∧ star_point 512 0 = star_point 512 2 := by
  constructor
  · norm_num [starAngle]
  · exact (star_point_even (by norm_num)).symm

/-- C2 amended: the star glyph is a 10-vertex polygon, but the vertices
only alternate between two fixed points — every even-indexed vertex
equals vertex 0 (outer offset) and every odd-indexed vertex equals
vertex 1 (inner offset); the computed angles never enter the
coordinates. -/
theorem claim_C2_amended (size : ℕ) :
    (star_points size).length = 10 ∧
    ∀ i, i < 10 → star_point size i =
      if i % 2 = 0 then star_point size 0 else star_point size 1 := by
  refine ⟨by simp [star_points], fun i _ => ?_⟩
  rcases Nat.mod_two_eq_zero_or_one i with h | h
  · rw [if_pos h, star_point_even h]
  · rw [if_neg (by omega), star_point_odd h]

theorem claim_C2_witness :
    3 < 10 ∧ star_point 512 3 =
      if 3 % 2 = 0 then star_point 512 0 else star_point 512 1 :=
  ⟨by norm_num, (claim_C2_amended 512).2 3 (by norm_num)⟩

/-- C3 fails as stated at size 1: the bottom row is then row 0, which
carries the start colour `(74, 144, 226)`, 81 units away from the
declared end colour in the red channel — far beyond integer rounding. -/
theorem claim_C3_counterexample :
    ¬ (|((backgroundGradient 1).px 0 (1 - 1)).r - 155| ≤ 1 ∧
       |((backgroundGradient 1).px 0 (1 - 1)).g - 89| ≤ 1 ∧
       |((backgroundGradient 1).px 0 (1 - 1)).b - 182| ≤ 1) := by
  have e : (backgroundGradient 1).px 0 (1 - 1) = gradColor 1 0 :=
    backgroundGradient_px 1 0 0 one_pos one_pos
  rw [e, gradColor_zero]
  decide

/-- C3 amended: for every positive size the top row is exactly the
declared start colour and between any two rows each channel varies
monotonically according to its endpoints (red non-decreasing, green and
blue non-increasing); the bottom-row clause holds only for sizes of at
least 81 pixels, where the bottom row is within one unit per channel of
the declared end colour — for smaller sizes it can deviate further, as
the size-1 counterexample shows. -/
theorem claim_C3_amended (size : ℕ) (h : 0 < size) :
    (∀ x, x < size → (backgroundGradient size).px x 0 = ⟨74, 144, 226, 255⟩) ∧
    (∀ x y₁ y₂, x < size → y₁ ≤ y₂ → y₂ < size →
      ((backgroundGradient size).px x y₁).r ≤ ((backgroundGradient size).px x y₂).r ∧
      ((backgroundGradient size).px x y₂).g ≤ ((backgroundGradient size).px x y₁).g ∧
      ((backgroundGradient size).px x y₂).b ≤ ((backgroundGradient size).px x y₁).b) ∧
    (81 ≤ size → ∀ x, x < size →
      |((backgroundGradient size).px x (size - 1)).r - 155| ≤ 1 ∧
      |((backgroundGradient size).px x (size - 1)).g - 89| ≤ 1 ∧
      |((backgroundGradient size).px x (size - 1)).b - 182| ≤ 1) := by
  refine ⟨fun x hx => ?_, fun x y₁ y₂ hx h12 h2 => ?_, fun h81 x hx => ?_⟩
  · rw [backgroundGradient_px size x 0 hx h, gradColor_zero]
  · rw [backgroundGradient_px size x y₁ hx (by omega),
      backgroundGradient_px size x y₂ hx h2]
    exact ⟨grad_r_mono h h12, grad_g_anti h h12 (by omega), grad_b_anti h h12 (by omega)⟩
  · rw [backgroundGradient_px size x (size - 1) hx (by omega), gradColor_last size h81]
    norm_num

theorem claim_C3_witness :
    0 < 81 ∧ (backgroundGradient 81).px 5 0 = ⟨74, 144, 226, 255⟩ ∧
    81 ≤ 81 ∧ |((backgroundGradient 81).px 5 (81 - 1)).r - 155| ≤ 1 :=
  ⟨by norm_num, (claim_C3_amended 81 (by norm_num)).1 5 (by norm_num), by norm_num,
   ((claim_C3_amended 81 (by norm_num)).2.2 (by norm_num) 5 (by norm_num)).1⟩

/-- C4 fails as stated: even in the program's binary64 arithmetic the
truncated anchor's relative position varies with the size — at sizes 2
and 3 the anchors are 0 and 1 (the float value at size 2 is
0.9999999999999998, truncated to 0), so the ratios are 0 and 1/3. -/
theorem claim_C4_counterexample :
    ((base_x 2 : ℚ) / (2 : ℚ)) ≠ ((base_x 3 : ℚ) / (3 : ℚ)) :=
  of_decide_eq_true (by with_unfolding_all rfl)

/-- C4 amended: `base_y` always equals `base_x` (the two source
expressions are identical), and the anchor sits at the canvas midpoint
only up to float rounding and `int()` truncation: at the program's two
sizes the anchors are 255 and 511, each within one pixel of the midpoint
(`|base_x / size - 1/2| ≤ 1 / size`, the bound being attained), but at
different relative positions — even the pair (512, 1024) is not
proportionally identical. -/
theorem claim_C4_amended :
    (∀ size, base_y size = base_x size) ∧
    base_x 512 = 255 ∧ base_x 1024 = 511 ∧
    |(base_x 512 : ℚ) / 512 - 1 / 2| ≤ 1 / 512 ∧
    |(base_x 1024 : ℚ) / 1024 - 1 / 2| ≤ 1 / 1024 ∧
    (base_x 512 : ℚ) / 512 ≠ (base_x 1024 : ℚ) / 1024 :=
  ⟨fun size => base_y_eq_base_x size,
   by with_unfolding_all rfl,
   by with_unfolding_all rfl,
   of_decide_eq_true (by with_unfolding_all rfl),
   of_decide_eq_true (by with_unfolding_all rfl),
   of_decide_eq_true (by with_unfolding_all rfl)⟩
